import Mathlib

/-!
Shallow embedding of the identity-provisioning and session-authorization
core of the HairBooking HTTP API (src/app.js): the POST /api/register
handler, the requireAuth middleware, and the GET /api/perfil handler.

The two external Supabase clients (the auth admin API, playing the role of
the Credential Store, and the `usuarios` table, playing the role of the
Profile Store) are modelled as result-valued functions supplied as
parameters: supabase-js surfaces API failures as returned error values
rather than thrown exceptions, so each call is an `Except String`.  Each
handler also returns the list of external calls it issued, in order, so
that statements about which calls were made (compensation, absence of
mutation) can be expressed.
-/

/-- An identity record as returned by the Credential Store
(`authData.user` at src/app.js:89). -/
structure Identity where
  id : String
  deriving DecidableEq

/-- The registration request body as destructured at src/app.js:68.
`none` models an absent (undefined) JSON field. -/
structure RegisterRequest where
  email : Option String
  password : Option String
  Nombre : Option String
  apellido_1 : Option String
  apellido_2 : Option String
  fecha_nacime : Option String
  deriving DecidableEq

/-- JavaScript template-literal rendering of a possibly undefined value. -/
def jsStr (o : Option String) : String := o.getD "undefined"

/-- The derived metadata field: the template literal built from Nombre and
apellido_1 at src/app.js:76. -/
def fullName (req : RegisterRequest) : String :=
  jsStr req.Nombre ++ " " ++ jsStr req.apellido_1

/-- A row of the `usuarios` table, with the columns inserted at
src/app.js:87-96. -/
structure ProfileRow where
  ID_Usuario : String
  Correo : Option String
  Nombre : Option String
  apellido_1 : Option String
  apellido_2 : Option String
  fecha_nacime : Option String
  deriving DecidableEq

/-- The profile row built for a freshly created identity id
(src/app.js:87-96): the id, the denormalized email, and the supplied
personal fields. -/
def mkRow (id : String) (req : RegisterRequest) : ProfileRow :=
  { ID_Usuario := id
    Correo := req.email
    Nombre := req.Nombre
    apellido_1 := req.apellido_1
    apellido_2 := req.apellido_2
    fecha_nacime := req.fecha_nacime }

/-- The external calls the register handler can issue, in program order. -/
inductive ExtCall where
  | createIdentity (email password : Option String) (meta : String)
  | insertProfile (row : ProfileRow)
  | deleteIdentity (id : String)
  deriving DecidableEq

/-- Recognizes create-identity calls. -/
def isCreateCall : ExtCall → Bool
  | .createIdentity _ _ _ => true
  | _ => false

/-- Recognizes profile-insert calls. -/
def isInsertCall : ExtCall → Bool
  | .insertProfile _ => true
  | _ => false

/-- Recognizes delete-identity calls. -/
def isDeleteCall : ExtCall → Bool
  | .deleteIdentity _ => true
  | _ => false

/-- Result-valued behaviour of the two external stores during one register
request: `createUser`, the `usuarios` insert, and `deleteUser`. -/
structure StoreBehavior where
  createIdentity : Option String → Option String → String → Except String Identity
  insertProfile : ProfileRow → Except String Unit
  deleteIdentity : String → Except String Unit

/-- Body of a register response: `{message, userId}` on success or
`{error}` on failure. -/
inductive RegisterBody where
  | success (message userId : String)
  | failure (errorMsg : String)
  deriving DecidableEq

/-- An HTTP response of the register handler. -/
structure RegisterResponse where
  status : Nat
  body : RegisterBody
  deriving DecidableEq

/-- The POST /api/register handler (src/app.js:67-113).  Step A calls
`createUser`; on error it returns 400 with message `Error Auth: ` plus the
store message.  Step B inserts the profile row; on error it awaits
`deleteUser` on the created id — discarding that call's result, exactly as
the source does at line 100 — and returns 400 with message
`Error Base de Datos: ` plus the store message.  Otherwise it returns 201
with the created id.  The second component is the list of external calls
issued. -/
def register (beh : StoreBehavior) (req : RegisterRequest) :
    RegisterResponse × List ExtCall :=
  let createCall := ExtCall.createIdentity req.email req.password (fullName req)
  match beh.createIdentity req.email req.password (fullName req) with
  | .error msg =>
      ({ status := 400, body := .failure ("Error Auth: " ++ msg) }, [createCall])
  | .ok ident =>
      let row := mkRow ident.id req
      match beh.insertProfile row with
      | .error msg =>
          ({ status := 400, body := .failure ("Error Base de Datos: " ++ msg) },
            [createCall, .insertProfile row, .deleteIdentity ident.id])
      | .ok _ =>
          ({ status := 201,
             body := .success "Usuario registrado con éxito" ident.id },
            [createCall, .insertProfile row])

/-- Outcome of `supabase.auth.getUser(token)` (src/app.js:31): a returned
pair of an optional error and an optional user, or a thrown exception
(caught at src/app.js:38). -/
inductive VerifyOutcome where
  | result (error : Option String) (user : Option Identity)
  | thrown
  deriving DecidableEq

/-- Splitting a character list on each single space character, keeping
empty segments, as the JavaScript string split does. -/
def jsSplitSpaceAux : List Char → List Char → List (List Char)
  | [], acc => [acc.reverse]
  | c :: rest, acc =>
      if c = ' ' then acc.reverse :: jsSplitSpaceAux rest []
      else jsSplitSpaceAux rest (c :: acc)

/-- JavaScript `h.split(' ')`. -/
def jsSplitSpace (h : String) : List String :=
  (jsSplitSpaceAux h.toList []).map String.mk

/-- `authHeader?.split(' ')[1]` (src/app.js:27): the element at index 1 of
the split, with an absent header propagating to an absent token. -/
def tokenOf (authHeader : Option String) : Option String :=
  match authHeader with
  | none => none
  | some h => (jsSplitSpace h).get? 1

/-- JavaScript truthiness of the extracted token at src/app.js:28:
`undefined` and the empty string are falsy. -/
def tokenTruthy (t : Option String) : Bool :=
  match t with
  | none => false
  | some s => !s.toList.isEmpty

/-- Outcome of the requireAuth middleware: either the resolved identity is
attached to the request and the next handler runs, or a response with the
given status and error message is sent and the chain stops. -/
inductive AuthOutcome where
  | proceed (user : Identity)
  | reject (status : Nat) (errorMsg : String)
  deriving DecidableEq

/-- The requireAuth middleware (src/app.js:24-42), parameterized by the
verify-token operation.  Returns the outcome together with the list of
tokens presented to verify-token.  An absent or falsy token yields 401
`Falta el token Bearer`; a verify call that throws yields 401
`Error verificando token`; a returned error or missing user yields 401
`Token inválido o expirado`; otherwise the resolved user proceeds. -/
def requireAuth (verify : String → VerifyOutcome) (authHeader : Option String) :
    AuthOutcome × List String :=
  match tokenOf authHeader with
  | none => (.reject 401 "Falta el token Bearer", [])
  | some tok =>
      if tok.toList.isEmpty then (.reject 401 "Falta el token Bearer", [])
      else
        match verify tok with
        | .thrown => (.reject 401 "Error verificando token", [tok])
        | .result err user =>
            match err with
            | some _ => (.reject 401 "Token inválido o expirado", [tok])
            | none =>
                match user with
                | none => (.reject 401 "Token inválido o expirado", [tok])
                | some u => (.proceed u, [tok])

/-- Verify outcomes the source treats as failures at src/app.js:32 and 38:
a thrown call, a returned error, or no resolved user. -/
def verifyFails : VerifyOutcome → Bool
  | .thrown => true
  | .result (some _) _ => true
  | .result none none => true
  | .result none (some _) => false

/-- The `.eq('ID_Usuario', userId)` row filter of the `usuarios` query at
src/app.js:244-247. -/
def queryByIdUsuario (tbl : List ProfileRow) (id : String) : List ProfileRow :=
  tbl.filter (fun r => r.ID_Usuario == id)

/-- PostgREST `.single()` (src/app.js:248): an error unless the query
matched exactly one row. -/
def singleRow (rows : List ProfileRow) : Except String ProfileRow :=
  match rows with
  | [r] => .ok r
  | _ => .error "JSON object requested, multiple (or no) rows returned"

/-- Body of a perfil response: the profile row or `{error}`. -/
inductive PerfilBody where
  | profile (row : ProfileRow)
  | failure (errorMsg : String)
  deriving DecidableEq

/-- Behaviour of the `usuarios` store for the perfil select: its rows,
plus a possible store-level failure of the select call itself (store
unavailable, permission error, ...), which supabase-js returns as an
`{error}` value just like a `.single()` mismatch. -/
structure PerfilStore where
  tbl : List ProfileRow
  selectError : Option String

/-- The whole select chain of src/app.js:244-248: a store-level failure
surfaces as the returned error; otherwise the rows matching the id filter
pass through `.single()`. -/
def selectSingleByIdUsuario (store : PerfilStore) (id : String) :
    Except String ProfileRow :=
  match store.selectError with
  | some e => .error e
  | none => singleRow (queryByIdUsuario store.tbl id)

/-- The GET /api/perfil handler behind requireAuth (src/app.js:240-259):
a guard rejection is returned as-is; otherwise the `usuarios` table is
queried by the resolved user's id with `.single()`, ANY query error —
a store-level failure as much as a zero- or multi-row `.single()`
mismatch — becomes 404 `Perfil no encontrado en DB` (src/app.js:250-252),
and a row becomes 200 with that row. -/
def getPerfil (verify : String → VerifyOutcome) (store : PerfilStore)
    (authHeader : Option String) : Nat × PerfilBody :=
  match requireAuth verify authHeader with
  | (.reject s m, _) => (s, .failure m)
  | (.proceed user, _) =>
      match selectSingleByIdUsuario store user.id with
      | .error _ => (404, .failure "Perfil no encontrado en DB")
      | .ok row => (200, .profile row)

/-- The data-model invariant of the `usuarios` table: one profile row per
identity, keyed by `ID_Usuario`. -/
def keysUnique (tbl : List ProfileRow) : Prop :=
  tbl.Pairwise (fun a b => a.ID_Usuario ≠ b.ID_Usuario)

/-! Concrete inputs and stub store behaviours used to instantiate the
theorems below on executable cases. -/

/-- The registration body of the end-to-end scenario. -/
def reqAna : RegisterRequest :=
  { email := some "a@x.com"
    password := some "p"
    Nombre := some "Ana"
    apellido_1 := some "Gomez"
    apellido_2 := none
    fecha_nacime := some "1990-01-01" }

/-- The same body with the required email field absent. -/
def reqNoEmail : RegisterRequest := { reqAna with email := none }

/-- The identity the stub Credential Store assigns. -/
def userAna : Identity := { id := "id-1" }

/-- Stub stores on which every call succeeds. -/
def behOk : StoreBehavior :=
  { createIdentity := fun _ _ _ => .ok userAna
    insertProfile := fun _ => .ok ()
    deleteIdentity := fun _ => .ok () }

/-- Stub stores on which only the profile insert fails. -/
def behInsertFails : StoreBehavior :=
  { behOk with insertProfile := fun _ => .error "boom" }

/-- Stub stores on which the profile insert and the compensating delete
both fail. -/
def behBothFail : StoreBehavior :=
  { behInsertFails with deleteIdentity := fun _ => .error "still down" }

/-- Stub stores on which identity creation fails. -/
def behCreateFails : StoreBehavior :=
  { behOk with createIdentity := fun _ _ _ => .error "dup" }

/-- A verify-token stub resolving every token to `userAna`. -/
def verifyOkStub : String → VerifyOutcome :=
  fun _ => .result none (some userAna)

/-- A verify-token stub returning an error for every token. -/
def verifyErrStub : String → VerifyOutcome :=
  fun _ => .result (some "invalid token") none

/-- The profile row provisioned for `userAna` from `reqAna`. -/
def rowAna : ProfileRow := mkRow "id-1" reqAna

/-- A healthy profile store holding exactly the provisioned row. -/
def storeAna : PerfilStore := { tbl := [rowAna], selectError := none }

/-- The same table, but with the select call failing at the store. -/
def storeDown : PerfilStore :=
  { tbl := [rowAna], selectError := some "store unavailable" }

/-! Helper lemmas shared by the claim theorems below. -/

/-- Exhaustive description of the requireAuth outcomes: either the token is
falsy and the guard rejects with the missing-token message before any
verify call, or a non-empty token is extracted and the outcome follows the
verify result, always as proceed or a 401 rejection. -/
theorem requireAuth_spec (verify : String → VerifyOutcome) (hdr : Option String) :
    (tokenTruthy (tokenOf hdr) = false ∧
        requireAuth verify hdr = (.reject 401 "Falta el token Bearer", [])) ∨
    (∃ tok, tokenOf hdr = some tok ∧ tokenTruthy (tokenOf hdr) = true ∧
        ((∃ u, verify tok = .result none (some u) ∧
            requireAuth verify hdr = (.proceed u, [tok])) ∨
         (verifyFails (verify tok) = true ∧
            (requireAuth verify hdr =
                (.reject 401 "Error verificando token", [tok]) ∨
             requireAuth verify hdr =
                (.reject 401 "Token inválido o expirado", [tok]))))) := by
  cases h : tokenOf hdr with
  | none => exact Or.inl ⟨by simp [tokenTruthy, h], by simp [requireAuth, h]⟩
  | some tok =>
      cases he : tok.toList.isEmpty with
      | true =>
          have he' : tok.data = [] := by simpa using he
          exact Or.inl ⟨by simp [tokenTruthy, he'],
            by simp [requireAuth, h, he']⟩
      | false =>
          have he' : ¬tok.data = [] := by simpa using he
          refine Or.inr ⟨tok, rfl, by simp [tokenTruthy, he'], ?_⟩
          cases hv : verify tok with
          | thrown =>
              exact Or.inr ⟨by simp [verifyFails, hv],
                Or.inl (by simp [requireAuth, h, he', hv])⟩
          | result err user =>
              cases err with
              | some e =>
                  exact Or.inr ⟨by simp [verifyFails, hv],
                    Or.inr (by simp [requireAuth, h, he', hv])⟩
              | none =>
                  cases user with
                  | none =>
                      exact Or.inr ⟨by simp [verifyFails, hv],
                        Or.inr (by simp [requireAuth, h, he', hv])⟩
                  | some u =>
                      exact Or.inl ⟨u, rfl, by simp [requireAuth, h, he', hv]⟩

/-- Every rejection of the guard carries status 401. -/
theorem requireAuth_reject_401 (verify : String → VerifyOutcome)
    (hdr : Option String) (s : Nat) (m : String)
    (h : (requireAuth verify hdr).1 = AuthOutcome.reject s m) : s = 401 := by
  rcases requireAuth_spec verify hdr with ⟨_, hr⟩ |
      ⟨tok, _, _, ⟨u, _, hr⟩ | ⟨_, hr | hr⟩⟩ <;>
    rw [hr] at h <;> simp at h <;> omega

/-- A singleRow success means the row list was exactly that one row. -/
theorem singleRow_ok (rows : List ProfileRow) (r : ProfileRow)
    (h : singleRow rows = Except.ok r) : rows = [r] := by
  rcases rows with _ | ⟨a, _ | ⟨b, t⟩⟩
  · simp [singleRow] at h
  · simp [singleRow] at h
    rw [h]
  · simp [singleRow] at h

/-- Over a table with unique `ID_Usuario` keys, the query by id matches
either no row or exactly the one row carrying that id. -/
theorem queryByIdUsuario_keyed (tbl : List ProfileRow) (id : String) :
    keysUnique tbl →
    (queryByIdUsuario tbl id = [] ∨
     ∃ row, row ∈ tbl ∧ row.ID_Usuario = id ∧
        queryByIdUsuario tbl id = [row]) := by
  induction tbl with
  | nil => intro _; exact Or.inl rfl
  | cons a t ih =>
      intro hu
      rw [keysUnique, List.pairwise_cons] at hu
      obtain ⟨ha, ht⟩ := hu
      by_cases hid : a.ID_Usuario = id
      · refine Or.inr ⟨a, List.mem_cons_self a t, hid, ?_⟩
        have hnone : List.filter (fun r => r.ID_Usuario == id) t = [] := by
          rw [List.filter_eq_nil_iff]
          intro b hb
          simp only [beq_iff_eq]
          intro hbid
          exact ha b hb (hid.trans hbid.symm)
        simp [queryByIdUsuario, List.filter_cons, hid, hnone]
      · have hstep : queryByIdUsuario (a :: t) id = queryByIdUsuario t id := by
          simp [queryByIdUsuario, List.filter_cons, hid]
        rcases ih ht with hq | ⟨row, hmem, hrid, hq⟩
        · exact Or.inl (hstep.trans hq)
        · exact Or.inr ⟨row, List.mem_cons_of_mem a hmem, hrid, hstep.trans hq⟩

/-- When the guard rejects, the perfil handler returns that rejection. -/
theorem getPerfil_of_reject (verify : String → VerifyOutcome)
    (store : PerfilStore) (hdr : Option String) (s : Nat) (m : String)
    (h : (requireAuth verify hdr).1 = AuthOutcome.reject s m) :
    getPerfil verify store hdr = (s, PerfilBody.failure m) := by
  have hp : requireAuth verify hdr =
      (AuthOutcome.reject s m, (requireAuth verify hdr).2) := by rw [← h]
  unfold getPerfil
  rw [hp]

/-- When the guard proceeds, the perfil handler runs the select chain for
the resolved user's id. -/
theorem getPerfil_of_proceed (verify : String → VerifyOutcome)
    (store : PerfilStore) (hdr : Option String) (u : Identity)
    (h : (requireAuth verify hdr).1 = AuthOutcome.proceed u) :
    getPerfil verify store hdr =
      (match selectSingleByIdUsuario store u.id with
        | .error _ => (404, PerfilBody.failure "Perfil no encontrado en DB")
        | .ok row => (200, PerfilBody.profile row)) := by
  have hp : requireAuth verify hdr =
      (AuthOutcome.proceed u, (requireAuth verify hdr).2) := by rw [← h]
  unfold getPerfil
  rw [hp]

/-- A select-chain success means the select did not fail at the store and
the id filter matched exactly the returned row. -/
theorem selectSingle_ok (store : PerfilStore) (id : String) (r : ProfileRow)
    (h : selectSingleByIdUsuario store id = Except.ok r) :
    store.selectError = none ∧ queryByIdUsuario store.tbl id = [r] := by
  cases hsel : store.selectError with
  | some e =>
      simp only [selectSingleByIdUsuario, hsel] at h
      exact absurd h (by simp)
  | none =>
      simp only [selectSingleByIdUsuario, hsel] at h
      exact ⟨rfl, singleRow_ok _ r h⟩

/-! The claim theorems. -/

/-- C1: for every registration in which identity creation succeeds and the
profile insert then fails, the handler issues exactly one compensating
delete-identity call, carrying the very id created in step 1, and returns
a failed-registration (400) response. -/
theorem register_compensates (beh : StoreBehavior) (req : RegisterRequest)
    (ident : Identity) (msg : String)
    (hc : beh.createIdentity req.email req.password (fullName req) =
        Except.ok ident)
    (hi : beh.insertProfile (mkRow ident.id req) = Except.error msg) :
    (register beh req).2.filter isDeleteCall =
        [ExtCall.deleteIdentity ident.id] ∧
    (register beh req).1.status = 400 := by
  simp only [register, hc, hi]
  simp [isDeleteCall]

/-- C1 witness: the compensation theorem instantiated on the stub whose
profile insert alone fails. -/
theorem register_compensates_witness :
    (register behInsertFails reqAna).2.filter isDeleteCall =
        [ExtCall.deleteIdentity "id-1"] ∧
    (register behInsertFails reqAna).1.status = 400 :=
  register_compensates behInsertFails reqAna userAna "boom" rfl rfl

/-- C2 counterexample: with the profile insert failing, the register output
when the compensating delete also fails is identical to the output when
the delete succeeds, and it is the ordinary profile-creation failure
response: the compensation failure is silently swallowed, with no distinct
CompensationFailed surfacing. -/
theorem register_compensation_swallowed :
    register behBothFail reqAna = register behInsertFails reqAna ∧
    (register behBothFail reqAna).1 =
      { status := 400, body := .failure "Error Base de Datos: boom" } :=
  ⟨rfl, rfl⟩

/-- C2 amended: the register handler discards the result of the
compensating delete-identity call entirely, so its response and call log
depend only on the create-identity and insert-profile behaviours; a
compensation failure is indistinguishable from a compensation success. -/
theorem register_independent_of_delete (beh beh' : StoreBehavior)
    (req : RegisterRequest)
    (hc : beh.createIdentity = beh'.createIdentity)
    (hi : beh.insertProfile = beh'.insertProfile) :
    register beh req = register beh' req := by
  simp only [register, hc, hi]

/-- C2 amended witness: the independence theorem instantiated on stubs
differing exactly in the delete-identity result. -/
theorem register_independent_of_delete_witness :
    register behBothFail reqAna = register behInsertFails reqAna :=
  register_independent_of_delete behBothFail behInsertFails reqAna rfl rfl

/-- C3 counterexample: a request whose required email field is absent is
not rejected as a client-input error: the handler still issues the
create-identity call (with an undefined email) and, on stub stores that
accept it, even answers 201. -/
theorem register_no_input_validation :
    (register behOk reqNoEmail).2.filter isCreateCall =
      [ExtCall.createIdentity none (some "p") "Ana Gomez"] ∧
    (register behOk reqNoEmail).1.status = 201 :=
  ⟨rfl, rfl⟩

/-- C3 amended: the register handler performs no field validation at all:
for every request body, including ones with absent or empty required
fields, its first external action is a create-identity call against the
Credential Store carrying the request fields verbatim. -/
theorem register_always_calls_credential_store (beh : StoreBehavior)
    (req : RegisterRequest) :
    (register beh req).2.head? =
      some (ExtCall.createIdentity req.email req.password (fullName req)) := by
  rcases hc : beh.createIdentity req.email req.password (fullName req)
    with msg | ident
  · simp [register, hc]
  · rcases hi : beh.insertProfile (mkRow ident.id req) with m | u <;>
      simp [register, hc, hi]

/-- C4 counterexample: the header `Basic abc` does not carry the Bearer
prefix, yet the guard does not answer MissingCredential: it extracts the
second segment `abc`, presents it to verify-token, and proceeds when the
stub resolves it. -/
theorem requireAuth_ignores_scheme :
    requireAuth verifyOkStub (some "Basic abc") =
      (AuthOutcome.proceed userAna, ["abc"]) := rfl

/-- C4 amended: the guard yields the MissingCredential rejection (401,
`Falta el token Bearer`) exactly when the extracted token is falsy — the
header is absent, or its second space-separated segment is absent or
empty; the Bearer prefix is never inspected, and every non-empty second
segment is presented to the verify-token operation. -/
theorem requireAuth_missing_iff (verify : String → VerifyOutcome)
    (hdr : Option String) :
    ((requireAuth verify hdr).1 =
        AuthOutcome.reject 401 "Falta el token Bearer" ↔
      tokenTruthy (tokenOf hdr) = false) ∧
    (∀ tok, tokenOf hdr = some tok → tok.toList ≠ [] →
      (requireAuth verify hdr).2 = [tok]) := by
  rcases requireAuth_spec verify hdr with ⟨hf, hr⟩ |
      ⟨tok, htok, htrue, hcase⟩
  · constructor
    · simp [hr, hf]
    · intro tok' h1 h2
      rw [h1] at hf
      simp [tokenTruthy] at hf
      exact absurd hf h2
  · constructor
    · rcases hcase with ⟨u, _, hr⟩ | ⟨_, hr | hr⟩ <;> simp [hr, htrue]
    · intro tok' h1 _
      obtain rfl : tok = tok' := by rw [htok] at h1; injection h1
      rcases hcase with ⟨u, _, hr⟩ | ⟨_, hr | hr⟩ <;> simp [hr]

/-- C4 amended witness: the presentation clause instantiated on the
non-Bearer header `Basic abc`. -/
theorem requireAuth_missing_iff_witness :
    (requireAuth verifyOkStub (some "Basic abc")).2 = ["abc"] :=
  (requireAuth_missing_iff verifyOkStub (some "Basic abc")).2 "abc" rfl
    (by decide)

/-- C5: every guard invocation ends as a passed-on identity or as a 401
rejection — never a 5xx or a 404 — and whenever the presented token's
verification errors, resolves no user, or throws, the outcome is such a
401 rejection. -/
theorem requireAuth_total (verify : String → VerifyOutcome)
    (hdr : Option String) :
    ((∃ u, (requireAuth verify hdr).1 = AuthOutcome.proceed u) ∨
     (∃ m, (requireAuth verify hdr).1 = AuthOutcome.reject 401 m)) ∧
    (∀ tok, (requireAuth verify hdr).2 = [tok] →
      verifyFails (verify tok) = true →
      ∃ m, (requireAuth verify hdr).1 = AuthOutcome.reject 401 m) := by
  rcases requireAuth_spec verify hdr with ⟨_, hr⟩ |
      ⟨tok, _, _, hcase⟩
  · refine ⟨Or.inr ⟨"Falta el token Bearer", by simp [hr]⟩, ?_⟩
    intro tok' h1 _
    rw [hr] at h1
    simp at h1
  · constructor
    · rcases hcase with ⟨u, _, hr⟩ | ⟨_, hr | hr⟩
      · exact Or.inl ⟨u, by simp [hr]⟩
      · exact Or.inr ⟨"Error verificando token", by simp [hr]⟩
      · exact Or.inr ⟨"Token inválido o expirado", by simp [hr]⟩
    · intro tok' h1 hfail
      rcases hcase with ⟨u, hv, hr⟩ | ⟨_, hr | hr⟩
      · rw [hr] at h1
        simp at h1
        rw [← h1, hv] at hfail
        simp [verifyFails] at hfail
      · exact ⟨"Error verificando token", by simp [hr]⟩
      · exact ⟨"Token inválido o expirado", by simp [hr]⟩

/-- C5 witness: a verify stub returning an error yields a 401 rejection. -/
theorem requireAuth_total_witness :
    ∃ m, (requireAuth verifyErrStub (some "Bearer abc")).1 =
      AuthOutcome.reject 401 m :=
  (requireAuth_total verifyErrStub (some "Bearer abc")).2 "abc" rfl rfl

/-- C6: when both external calls succeed, register responds 201 with the
success message and a userId equal to the identity id assigned by the
Credential Store, and the call log contains exactly one profile insert —
keyed by that id and carrying the denormalized email together with the
supplied personal fields. -/
theorem register_success (beh : StoreBehavior) (req : RegisterRequest)
    (ident : Identity)
    (hc : beh.createIdentity req.email req.password (fullName req) =
        Except.ok ident)
    (hi : beh.insertProfile (mkRow ident.id req) = Except.ok ()) :
    (register beh req).1 =
      { status := 201,
        body := RegisterBody.success "Usuario registrado con éxito" ident.id } ∧
    (register beh req).2.filter isInsertCall =
      [ExtCall.insertProfile
        { ID_Usuario := ident.id, Correo := req.email, Nombre := req.Nombre,
          apellido_1 := req.apellido_1, apellido_2 := req.apellido_2,
          fecha_nacime := req.fecha_nacime }] := by
  simp only [register, hc, hi]
  simp [isInsertCall, mkRow]

/-- C6 witness: the success theorem instantiated on the all-succeeding
stub stores and the end-to-end registration body. -/
theorem register_success_witness :
    (register behOk reqAna).1 =
      { status := 201,
        body := RegisterBody.success "Usuario registrado con éxito" "id-1" } ∧
    (register behOk reqAna).2.filter isInsertCall =
      [ExtCall.insertProfile rowAna] :=
  register_success behOk reqAna userAna rfl rfl

/-- C7: when the Credential Store create-identity call fails, register
returns the Auth-prefixed 400 failure immediately, its call log is that
single create call, and in particular no profile insert and no
compensating delete is issued. -/
theorem register_create_failure_no_mutation (beh : StoreBehavior)
    (req : RegisterRequest) (msg : String)
    (hc : beh.createIdentity req.email req.password (fullName req) =
        Except.error msg) :
    (register beh req).1 =
      { status := 400, body := RegisterBody.failure ("Error Auth: " ++ msg) } ∧
    (register beh req).2 =
      [ExtCall.createIdentity req.email req.password (fullName req)] ∧
    (register beh req).2.filter isInsertCall = [] ∧
    (register beh req).2.filter isDeleteCall = [] := by
  simp only [register, hc]
  simp [isInsertCall, isDeleteCall]

/-- C7 witness: the no-mutation theorem instantiated on the stub whose
create-identity call fails. -/
theorem register_create_failure_witness :
    (register behCreateFails reqAna).1 =
      { status := 400, body := RegisterBody.failure "Error Auth: dup" } ∧
    (register behCreateFails reqAna).2 =
      [ExtCall.createIdentity (some "a@x.com") (some "p") "Ana Gomez"] ∧
    (register behCreateFails reqAna).2.filter isInsertCall = [] ∧
    (register behCreateFails reqAna).2.filter isDeleteCall = [] :=
  register_create_failure_no_mutation behCreateFails reqAna "dup" rfl

/-- C8: every register failure body comes with status 400 and a message
prefixed to name the failing store: `Error Auth: ` exactly when the
Credential Store create failed, `Error Base de Datos: ` exactly when the
Profile Store insert failed after a successful create. -/
theorem register_failure_prefixed (beh : StoreBehavior)
    (req : RegisterRequest) (m : String)
    (h : (register beh req).1.body = RegisterBody.failure m) :
    (register beh req).1.status = 400 ∧
    ((∃ e, beh.createIdentity req.email req.password (fullName req) =
          Except.error e ∧ m = "Error Auth: " ++ e) ∨
     (∃ i e, beh.createIdentity req.email req.password (fullName req) =
          Except.ok i ∧
        beh.insertProfile (mkRow i.id req) = Except.error e ∧
        m = "Error Base de Datos: " ++ e)) := by
  rcases hc : beh.createIdentity req.email req.password (fullName req)
    with e | i
  · simp only [register, hc] at h
    refine ⟨by simp [register, hc], Or.inl ⟨e, rfl, ?_⟩⟩
    simpa using h.symm
  · rcases hi : beh.insertProfile (mkRow i.id req) with e | u
    · simp only [register, hc, hi] at h
      refine ⟨by simp [register, hc, hi], Or.inr ⟨i, e, rfl, hi, ?_⟩⟩
      simpa using h.symm
    · simp only [register, hc, hi] at h
      exact absurd h (by simp)

/-- C8 witness: the prefix theorem instantiated on the stub whose
create-identity call fails with message `dup`. -/
theorem register_failure_prefixed_witness :
    (register behCreateFails reqAna).1.status = 400 ∧
    ((∃ e, behCreateFails.createIdentity reqAna.email reqAna.password
          (fullName reqAna) = Except.error e ∧
        "Error Auth: dup" = "Error Auth: " ++ e) ∨
     (∃ i e, behCreateFails.createIdentity reqAna.email reqAna.password
          (fullName reqAna) = Except.ok i ∧
        behCreateFails.insertProfile (mkRow i.id reqAna) = Except.error e ∧
        "Error Auth: dup" = "Error Base de Datos: " ++ e)) :=
  register_failure_prefixed behCreateFails reqAna "Error Auth: dup" rfl

/-- C9 counterexample: the profile row exists and the guard resolves its
owner, yet a store-level failure of the select call still yields 404 —
in the source every query error reaches the same 404 branch, so 404 does
not imply the authenticated identity has no profile row, and an existing
row does not guarantee 200. -/
theorem getPerfil_404_despite_row :
    (requireAuth verifyOkStub (some "Bearer abc")).1 =
        AuthOutcome.proceed userAna ∧
    rowAna ∈ storeDown.tbl ∧ rowAna.ID_Usuario = userAna.id ∧
    getPerfil verifyOkStub storeDown (some "Bearer abc") =
      (404, PerfilBody.failure "Perfil no encontrado en DB") :=
  ⟨rfl, List.mem_singleton.mpr rfl, rfl, rfl⟩

/-- C9 amended: a guard rejection yields 401.  When the guard resolves an
identity: if the select call fails at the store, the response is 404
regardless of the table contents; if the select succeeds then, over a
table with unique identity keys, the response is 200 with the row keyed by
the identity's id when one exists, and 404 exactly when no row carries
that id — so a 404 signals either a missing profile row or any select
error, not absence alone. -/
theorem getPerfil_cases (verify : String → VerifyOutcome)
    (store : PerfilStore) (hdr : Option String) (hu : keysUnique store.tbl) :
    (∀ s m, (requireAuth verify hdr).1 = AuthOutcome.reject s m →
        getPerfil verify store hdr = (401, PerfilBody.failure m)) ∧
    (∀ u, (requireAuth verify hdr).1 = AuthOutcome.proceed u →
        ((∀ e, store.selectError = some e →
            getPerfil verify store hdr =
              (404, PerfilBody.failure "Perfil no encontrado en DB")) ∧
         (store.selectError = none →
            ((∀ row, row ∈ store.tbl → row.ID_Usuario = u.id →
                getPerfil verify store hdr = (200, PerfilBody.profile row)) ∧
             ((getPerfil verify store hdr).1 = 404 ↔
                ∀ row ∈ store.tbl, row.ID_Usuario ≠ u.id))))) := by
  constructor
  · intro s m h
    have hs := requireAuth_reject_401 verify hdr s m h
    subst hs
    exact getPerfil_of_reject verify store hdr 401 m h
  · intro u h
    have hg := getPerfil_of_proceed verify store hdr u h
    constructor
    · intro e hsel
      have hsee : selectSingleByIdUsuario store u.id = Except.error e := by
        simp [selectSingleByIdUsuario, hsel]
      rw [hsee] at hg
      exact hg
    · intro hnone
      have hsee : selectSingleByIdUsuario store u.id =
          singleRow (queryByIdUsuario store.tbl u.id) := by
        simp [selectSingleByIdUsuario, hnone]
      rw [hsee] at hg
      rcases queryByIdUsuario_keyed store.tbl u.id hu with hq |
          ⟨row, hmem, hid, hq⟩
      · rw [hq] at hg
        have h404 : getPerfil verify store hdr =
            (404, PerfilBody.failure "Perfil no encontrado en DB") := hg
        constructor
        · intro row hrow hrid
          have hm : row ∈ queryByIdUsuario store.tbl u.id :=
            List.mem_filter.mpr ⟨hrow, by simp [hrid]⟩
          rw [hq] at hm
          exact absurd hm (List.not_mem_nil row)
        · refine ⟨fun _ row hrow heq => ?_, fun _ => by rw [h404]⟩
          have hm : row ∈ queryByIdUsuario store.tbl u.id :=
            List.mem_filter.mpr ⟨hrow, by simp [heq]⟩
          rw [hq] at hm
          exact absurd hm (List.not_mem_nil row)
      · rw [hq] at hg
        have h200 : getPerfil verify store hdr =
            (200, PerfilBody.profile row) := hg
        constructor
        · intro row' hrow' hrid'
          have hm : row' ∈ queryByIdUsuario store.tbl u.id :=
            List.mem_filter.mpr ⟨hrow', by simp [hrid']⟩
          rw [hq] at hm
          obtain rfl : row' = row := List.mem_singleton.mp hm
          exact h200
        · constructor
          · intro h404
            rw [h200] at h404
            simp at h404
          · intro hall
            exact absurd hid (hall row hmem)

/-- C9 witness: the amended theorem instantiated on the healthy singleton
store, an all-valid verify stub and a Bearer header, yielding the 200
case for the provisioned row. -/
theorem getPerfil_cases_witness :
    getPerfil verifyOkStub storeAna (some "Bearer abc") =
      (200, PerfilBody.profile rowAna) :=
  ((((getPerfil_cases verifyOkStub storeAna (some "Bearer abc")
      (by simp [storeAna, keysUnique])).2 userAna rfl).2 rfl).1) rowAna
    (List.mem_singleton.mpr rfl) rfl

/-- C10: every 200 response of fetch-own-profile carries a table row whose
ID_Usuario equals the id of the identity the guard resolved from the
presented token; a profile belonging to a different identity can never be
returned. -/
theorem getPerfil_owner_only (verify : String → VerifyOutcome)
    (store : PerfilStore) (hdr : Option String) (row : ProfileRow)
    (h : getPerfil verify store hdr = (200, PerfilBody.profile row)) :
    ∃ u, (requireAuth verify hdr).1 = AuthOutcome.proceed u ∧
      row ∈ store.tbl ∧ row.ID_Usuario = u.id := by
  cases ho : (requireAuth verify hdr).1 with
  | reject s m =>
      rw [getPerfil_of_reject verify store hdr s m ho] at h
      simp at h
  | proceed u =>
      have hg := getPerfil_of_proceed verify store hdr u ho
      rw [hg] at h
      cases hs : selectSingleByIdUsuario store u.id with
      | error e =>
          rw [hs] at h
          simp at h
      | ok r =>
          rw [hs] at h
          have hbody : r = row := by simpa using h
          obtain ⟨_, hrows⟩ := selectSingle_ok store u.id r hs
          have hr : r ∈ queryByIdUsuario store.tbl u.id := by
            rw [hrows]; exact List.mem_singleton.mpr rfl
          obtain ⟨hmem, hbeq⟩ := List.mem_filter.mp hr
          have hid : r.ID_Usuario = u.id := by simpa using hbeq
          subst hbody
          exact ⟨u, rfl, hmem, hid⟩

/-- C10 witness: the ownership theorem instantiated on the healthy
singleton store and the all-valid verify stub. -/
theorem getPerfil_owner_only_witness :
    ∃ u, (requireAuth verifyOkStub (some "Bearer abc")).1 =
        AuthOutcome.proceed u ∧
      rowAna ∈ storeAna.tbl ∧ rowAna.ID_Usuario = u.id :=
  getPerfil_owner_only verifyOkStub storeAna (some "Bearer abc") rowAna rfl
